import Mathlib

/-!
# Verification of the GeoJSON decoding core

Shallow embedding of the `geojson` package: the untyped JSON value trees that
Go's `encoding/json` hands to the decoder (`interface{}` values), the geometry
data model, and the recursive type-tag-driven geometry decoder
(`parseGeometry` and its helpers), together with the `Feature` /
`FeatureCollection` operations the decoder is reached through.

Modelling conventions:
* A Go `interface{}` value produced by generic JSON unmarshalling is a `Json`
  tree.  A `nil` interface (JSON `null`, or a missing map key) is `Json.null`.
  JSON numbers are carried as rationals: the decoder only moves numbers around
  and never computes with them, so the numeric carrier is irrelevant to the
  claims.
* A Go `(T, error)` return together with the possibility of a runtime panic is
  a `PResult T`: `ok`, `err` (normal error return) or `panicked` (an
  uncaught panic unwinding through the function).  `recover` boundaries are
  modelled explicitly where the source has them (only `parseCoordinate`).
* Each `fmt.Errorf` / `errors.New` call site in the source is one constructor
  of `GoError`, carrying the interpolated values; string formatting itself is
  not modelled.
-/

/-- Untyped JSON value, as produced by Go's `encoding/json` into
`interface{}`: `null` also stands for the `nil` interface obtained from a
missing map key. -/
inductive Json where
  | null : Json
  | bool (b : Bool) : Json
  | num (q : ℚ) : Json
  | str (s : String) : Json
  | arr (elems : List Json) : Json
  | obj (fields : List (String × Json)) : Json


/-- The two runtime panic sources reachable from the decoder:
the unchecked interface-to-map type assertion `gi.(map[string]interface{})`
in `parseGeometry`, and the numeric coercion `Coord` applied to a
non-numeric value. -/
inductive GoPanic where
  | typeAssertMap (v : Json) : GoPanic
  | coordCoercion (v : Json) : GoPanic


/-- One constructor per error call site in the source. -/
inductive GoError where
  /-- `fmt.Errorf("Error unmarshal %v to coordinates", c)` in `parseCoordinate`. -/
  | malformedCoordinate (v : Json) : GoError
  /-- `err = fmt.Errorf("%v", e)` in `parseCoordinate`'s deferred `recover`. -/
  | recovered (p : GoPanic) : GoError
  /-- `fmt.Errorf("ParseErrr: Coordinates parse error, %v", obj)` in `parseCoordinates`. -/
  | coordinatesParse (v : Json) : GoError
  /-- `fmt.Errorf("ParseErrr: MultiLine parse error, %v", obj)` in `parseMultiLine`. -/
  | multiLineParse (v : Json) : GoError
  /-- `errors.New("Parse Error: parse multi polygon error")` in `parseMultiPolygon`. -/
  | multiPolygonParse : GoError
  /-- `fmt.Errorf("ParseError: Unknown geometry type %s", typ)` in `parseGeometry`. -/
  | unknownGeometryType (tag : Json) : GoError
  /-- `errors.New("ParseError: Error durring parse geometry collection")` in
  `parseGeometryCollection`. -/
  | geometryCollectionParse : GoError


/-- Outcome of a Go call that returns `(α, error)` and may also panic. -/
inductive PResult (α : Type) where
  | ok (a : α) : PResult α
  | err (e : GoError) : PResult α
  | panicked (p : GoPanic) : PResult α


namespace PResult

/-- Map over a successful result; errors and panics pass through unchanged. -/
def pmap {α β : Type} (f : α → β) : PResult α → PResult β
  | .ok a => .ok (f a)
  | .err e => .err e
  | .panicked p => .panicked p

end PResult

/-- Go map lookup `g[key]` on the decoded object: a missing key yields the
`nil` interface (`Json.null`). -/
def jlookup : List (String × Json) → String → Json
  | [], _ => .null
  | (k, v) :: rest, key => if k = key then v else jlookup rest key

/-- Modelled from the spec: the numeric coercion `Coord` (its definition is in
a repository file outside `src/`).  Per §4.1/§7 it converts an untyped value
to a floating-point coordinate component, and "attempting numeric conversion
on a non-numeric value" raises a low-level fault (a panic identifying the
offending value) instead of returning. -/
def Coord : Json → PResult ℚ
  | .num q => .ok q
  | v => .panicked (.coordCoercion v)

/-- Body of `parseCoordinate` (before the deferred `recover`): require a
2-element array, then coerce both elements with `Coord`. -/
def parseCoordinateBody (c : Json) : PResult (ℚ × ℚ) :=
  match c with
  | .arr [a, b] =>
    match Coord a with
    | .ok x =>
      match Coord b with
      | .ok y => .ok (x, y)
      | .err e => .err e
      | .panicked p => .panicked p
    | .err e => .err e
    | .panicked p => .panicked p
  | _ => .err (.malformedCoordinate c)

/-- `parseCoordinate`: the body above guarded by the deferred `recover`,
which turns any panic raised inside this call into a normal error return
(`err = fmt.Errorf("%v", e)`). -/
def parseCoordinate (c : Json) : PResult (ℚ × ℚ) :=
  match parseCoordinateBody c with
  | .panicked p => .err (.recovered p)
  | r => r

/-- The `for i, v := range c` loops of the list decoders: apply `f` to each
element in order, stopping at the first error (the partial output slice is
discarded) and letting panics unwind. -/
def mapPR {α : Type} (f : Json → PResult α) : List Json → PResult (List α)
  | [] => .ok []
  | v :: rest =>
    match f v with
    | .ok a => (mapPR f rest).pmap (a :: ·)
    | .err e => .err e
    | .panicked p => .panicked p

/-- `parseCoordinates`: require a non-empty array, decode every element with
`parseCoordinate`, fail fast on the first element error. -/
def parseCoordinates (obj : Json) : PResult (List (ℚ × ℚ)) :=
  match obj with
  | .arr c =>
    if c.length < 1 then .err (.coordinatesParse obj)
    else mapPR parseCoordinate c
  | _ => .err (.coordinatesParse obj)

/-- `parseMultiLine`: require a non-empty array, decode every element with
`parseCoordinates`, fail fast on the first element error. -/
def parseMultiLine (obj : Json) : PResult (List (List (ℚ × ℚ))) :=
  match obj with
  | .arr c =>
    if c.length < 1 then .err (.multiLineParse obj)
    else mapPR parseCoordinates c
  | _ => .err (.multiLineParse obj)

/-- A 2D position `(x, y)` (Go: the two-component coordinate value). -/
abbrev Coordinate := ℚ × ℚ

/-- An ordered sequence of coordinates (Go: `Coordinates`). -/
abbrev Coordinates := List Coordinate

/-- An ordered sequence of coordinate lists (Go: `MultiLine`). -/
abbrev MultiLine := List Coordinates

/-- Modelled from the spec: the closed sum of the seven geometry variants
(§3).  The Go variant structs (`Point`, `LineString`, …) and the `Geometry`
interface they implement live in a repository file outside `src/`; each
variant wraps exactly its coordinate payload, and `GeometryCollection` is the
one recursive variant. -/
inductive Geometry where
  | point (c : Coordinate) : Geometry
  | lineString (c : Coordinates) : Geometry
  | multiPoint (c : Coordinates) : Geometry
  | multiLineString (m : MultiLine) : Geometry
  | polygon (m : MultiLine) : Geometry
  | multiPolygon (ms : List MultiLine) : Geometry
  | collection (gs : List Geometry) : Geometry

/-- `parsePoint`: decode the payload with `parseCoordinate` and wrap it as a
`Point` (`NewPoint` plus the upcast to the `Geometry` interface). -/
def parsePoint (obj : Json) : PResult Geometry :=
  (parseCoordinate obj).pmap .point

/-- `parseLineString`: `parseCoordinates` wrapped as a `LineString`. -/
def parseLineString (obj : Json) : PResult Geometry :=
  (parseCoordinates obj).pmap .lineString

/-- `parseMultiPoint`: `parseCoordinates` wrapped as a `MultiPoint`. -/
def parseMultiPoint (obj : Json) : PResult Geometry :=
  (parseCoordinates obj).pmap .multiPoint

/-- `parseMultiLineString`: `parseMultiLine` wrapped as a `MultiLineString`. -/
def parseMultiLineString (obj : Json) : PResult Geometry :=
  (parseMultiLine obj).pmap .multiLineString

/-- `parsePolygon`: `parseMultiLine` wrapped as a `Polygon`. -/
def parsePolygon (obj : Json) : PResult Geometry :=
  (parseMultiLine obj).pmap .polygon

/-- `parseMultiPolygon`: require an array (possibly empty — there is no
length check here, unlike `parseCoordinates` / `parseMultiLine`), decode each
element with `parseMultiLine`, fail fast, wrap as a `MultiPolygon`. -/
def parseMultiPolygon (obj : Json) : PResult Geometry :=
  match obj with
  | .arr si => (mapPR parseMultiLine si).pmap .multiPolygon
  | _ => .err .multiPolygonParse

/-- The value a map lookup returns is either `null` (missing key) or one of
the stored values, so it is smaller than the whole object. -/
theorem sizeOf_jlookup_lt (l : List (String × Json)) (key : String) :
    sizeOf (jlookup l key) < 1 + sizeOf l := by
  induction l with
  | nil => simp [jlookup]
  | cons kv rest ih =>
    obtain ⟨k, v⟩ := kv
    simp only [jlookup]
    split
    · simp only [List.cons.sizeOf_spec, Prod.mk.sizeOf_spec]
      omega
    · simp only [List.cons.sizeOf_spec, Prod.mk.sizeOf_spec]
      omega

mutual

/-- `parseGeometry`: assert the input is a JSON object (`map[string]interface{}`
— an **unchecked** type assertion, so any other input panics), read the
`"coordinates"` payload, and dispatch on the `"type"` tag by exact string
match; an unrecognized or non-string tag is an `UnknownGeometryType` error. -/
def parseGeometry (gi : Json) : PResult Geometry :=
  match gi with
  | .obj fields =>
    let coord := jlookup fields "coordinates"
    match jlookup fields "type" with
    | .str "Point" => parsePoint coord
    | .str "LineString" => parseLineString coord
    | .str "MultiPoint" => parseMultiPoint coord
    | .str "MultiLineString" => parseMultiLineString coord
    | .str "Polygon" => parsePolygon coord
    | .str "MultiPolygon" => parseMultiPolygon coord
    | .str "GeometryCollection" => parseGeometryCollection (jlookup fields "geometries")
    | typ => .err (.unknownGeometryType typ)
  | v => .panicked (.typeAssertMap v)
termination_by sizeOf gi
decreasing_by
  all_goals simp only [Json.obj.sizeOf_spec]
  all_goals exact sizeOf_jlookup_lt fields "geometries"

/-- `parseGeometryCollection`: require the `"geometries"` value to be an
array, recursively decode each element with `parseGeometry` in order, fail
fast, and collect the results (`NewGeometryCollection` plus the appends). -/
def parseGeometryCollection (obj : Json) : PResult Geometry :=
  match obj with
  | .arr si => (parseGeomList si).pmap .collection
  | _ => .err .geometryCollectionParse
termination_by sizeOf obj

/-- The `for` loop of `parseGeometryCollection`: decode the elements in
order, stopping at the first error (no partial collection survives) and
letting panics unwind. -/
def parseGeomList (l : List Json) : PResult (List Geometry) :=
  match l with
  | [] => .ok []
  | g :: rest =>
    match parseGeometry g with
    | .ok x => (parseGeomList rest).pmap (x :: ·)
    | .err e => .err e
    | .panicked p => .panicked p
termination_by sizeOf l

end

/-- Coordinate reference system metadata (`CRS`). -/
structure CRS where
  type : String
  properties : List (String × String)

/-- `NewNamedCRS`. -/
def NewNamedCRS (name : String) : CRS :=
  { type := "name", properties := [("name", name)] }

/-- `NewLinkedCRS`. -/
def NewLinkedCRS (href typ : String) : CRS :=
  { type := "link", properties := [("href", href), ("type", typ)] }

/-- `Feature`: the geometry member is kept as the raw untyped value it was
received as (`Geometry interface{}`), decoded only on demand. -/
structure Feature where
  type : String
  id : Json
  geometry : Json
  properties : List (String × Json)
  bbox : List ℚ
  crs : Option CRS

/-- `Feature.GetGeometry`: run `parseGeometry` on the stored raw geometry
value. -/
def Feature.GetGeometry (t : Feature) : PResult Geometry :=
  parseGeometry t.geometry

/-- `FeatureCollection`.  The `Features` slice may be `nil` (`none`) —
distinct from a non-`nil` empty slice (`some []`), which is what the
zero-value robustness claim is about. -/
structure FeatureCollection where
  type : String
  features : Option (List Feature)
  bbox : List ℚ
  crs : Option CRS

/-- `NewFeatureCollection`. -/
def NewFeatureCollection (features : Option (List Feature)) : FeatureCollection :=
  { type := "FeatureCollection", features := features, bbox := [], crs := none }

/-- Go's built-in `append(s, elems...)` on a possibly-`nil` slice: appending
zero elements returns the slice unchanged (a `nil` slice stays `nil`);
appending a non-empty pack always yields a non-`nil` slice. -/
def goAppend (s extra : Option (List Feature)) : Option (List Feature) :=
  match extra with
  | none => s
  | some [] => s
  | some es => some (s.getD [] ++ es)

/-- `FeatureCollection.AddFeatures(f ...*Feature)`: a call with no arguments
passes the `nil` slice for `f`, in which case the backing store is first
(re)initialized to an empty non-`nil` slice; then `f` is appended. -/
def FeatureCollection.AddFeatures (t : FeatureCollection) (f : Option (List Feature)) :
    FeatureCollection :=
  let t1 := if f.isNone then { t with features := some [] } else t
  { t1 with features := goAppend t1.features f }

/-- Modelled from the spec: the shape-arity invariant of §3 — the payloads a
decode can actually produce.  `Coordinates` and `MultiLine` values are
non-empty at every level; a `MultiPolygon`'s polygon list and a
`GeometryCollection`'s member list may be empty. -/
def validMulti (m : MultiLine) : Bool :=
  !m.isEmpty && m.all (fun l => !l.isEmpty)

mutual

/-- Modelled from the spec: which `Geometry` values satisfy the recursive
arity rules of §3 (the values "valid" in the round-trip property of §8). -/
def validGeometry : Geometry → Bool
  | .point _ => true
  | .lineString c => !c.isEmpty
  | .multiPoint c => !c.isEmpty
  | .multiLineString m => validMulti m
  | .polygon m => validMulti m
  | .multiPolygon ms => ms.all validMulti
  | .collection gs => validGeomList gs

/-- Validity of every member of a collection. -/
def validGeomList : List Geometry → Bool
  | [] => true
  | g :: rest => validGeometry g && validGeomList rest

end

/-- Modelled from the spec: wire form of a coordinate — a 2-element numeric
array (§6, §4.1). -/
def encodeCoordinate (c : Coordinate) : Json :=
  .arr [.num c.1, .num c.2]

/-- Modelled from the spec: wire form of a coordinate list. -/
def encodeCoordinates (l : Coordinates) : Json :=
  .arr (l.map encodeCoordinate)

/-- Modelled from the spec: wire form of a `MultiLine`. -/
def encodeMultiLine (m : MultiLine) : Json :=
  .arr (m.map encodeCoordinates)

mutual

/-- Modelled from the spec: the generic structure-to-JSON encoding of the
geometry variant structs (§6): a `"type"` tag plus a `"coordinates"` payload,
or `"geometries"` for a collection — "re-encoding to the same field names
consumed by the decoder" (§4.4).  The encoder itself (`Marshal` /
`json.Marshal` and the variants' field tags) lives outside `src/`. -/
def encodeGeometry : Geometry → Json
  | .point c => .obj [("type", .str "Point"), ("coordinates", encodeCoordinate c)]
  | .lineString l => .obj [("type", .str "LineString"), ("coordinates", encodeCoordinates l)]
  | .multiPoint l => .obj [("type", .str "MultiPoint"), ("coordinates", encodeCoordinates l)]
  | .multiLineString m =>
    .obj [("type", .str "MultiLineString"), ("coordinates", encodeMultiLine m)]
  | .polygon m => .obj [("type", .str "Polygon"), ("coordinates", encodeMultiLine m)]
  | .multiPolygon ms =>
    .obj [("type", .str "MultiPolygon"), ("coordinates", .arr (ms.map encodeMultiLine))]
  | .collection gs =>
    .obj [("type", .str "GeometryCollection"), ("geometries", .arr (encodeGeomList gs))]

/-- Wire form of a collection's member list, in order. -/
def encodeGeomList : List Geometry → List Json
  | [] => []
  | g :: rest => encodeGeometry g :: encodeGeomList rest

end

/-! ## Helper lemmas -/

theorem pmap_ne_panicked {α β : Type} (f : α → β) (r : PResult α)
    (h : ∀ p, r ≠ .panicked p) : ∀ p, r.pmap f ≠ .panicked p := by
  intro p
  cases r with
  | ok a => simp [PResult.pmap]
  | err e => simp [PResult.pmap]
  | panicked q => exact absurd rfl (h q)

theorem pmap_eq_ok {α β : Type} (f : α → β) (r : PResult α) (b : β) :
    r.pmap f = .ok b ↔ ∃ a, r = .ok a ∧ f a = b := by
  cases r <;> simp [PResult.pmap]

theorem mapPR_no_panicked {α : Type} (f : Json → PResult α)
    (hf : ∀ v p, f v ≠ .panicked p) :
    ∀ l p, mapPR f l ≠ .panicked p := by
  intro l
  induction l with
  | nil => intro p; simp [mapPR]
  | cons v rest ih =>
    intro p
    simp only [mapPR]
    cases h : f v with
    | ok a => exact pmap_ne_panicked _ _ ih p
    | err e => simp
    | panicked q => exact absurd h (by simpa using hf v q)

/-- A `mapPR` run succeeds with `as` exactly when the elements decode
pointwise, in order, to the members of `as`. -/
theorem mapPR_ok_iff {α : Type} (f : Json → PResult α) (l : List Json) (as : List α) :
    mapPR f l = .ok as ↔ List.Forall₂ (fun v a => f v = .ok a) l as := by
  induction l generalizing as with
  | nil =>
    simp only [mapPR]
    constructor
    · rintro h
      cases h
      exact List.Forall₂.nil
    · intro h
      cases h
      rfl
  | cons v rest ih =>
    simp only [mapPR]
    cases h : f v with
    | ok a =>
      rw [pmap_eq_ok]
      constructor
      · rintro ⟨as', has', rfl⟩
        exact List.Forall₂.cons h ((ih as').mp has')
      · intro hfa
        cases hfa with
        | cons hv hrest =>
          rename_i b bs
          have : a = b := by rw [h] at hv; cases hv; rfl
          exact ⟨bs, (ih bs).mpr hrest, by rw [this]⟩
    | err e =>
      constructor
      · intro h'; cases h'
      · intro hfa
        cases hfa with
        | cons hv _ => rw [h] at hv; cases hv
    | panicked q =>
      constructor
      · intro h'; cases h'
      · intro hfa
        cases hfa with
        | cons hv _ => rw [h] at hv; cases hv

/-- Fail-fast: with every element before `v` decoding successfully and `v`
failing with `e`, the whole run returns exactly `e`. -/
theorem mapPR_fail_fast {α : Type} (f : Json → PResult α) (l₁ : List Json) (v : Json)
    (l₂ : List Json) (e : GoError) (h₁ : ∀ v' ∈ l₁, ∃ a, f v' = .ok a)
    (h₂ : f v = .err e) : mapPR f (l₁ ++ v :: l₂) = .err e := by
  induction l₁ with
  | nil => simp [mapPR, h₂]
  | cons w rest ih =>
    obtain ⟨a, ha⟩ := h₁ w (by simp)
    have hrest : mapPR f (rest ++ v :: l₂) = .err e :=
      ih (fun v' hv' => h₁ v' (by simp [hv']))
    simp [mapPR, ha, hrest, PResult.pmap]

/-- Encoding then pointwise decoding gives back the original list. -/
theorem mapPR_encode {α : Type} (f : Json → PResult α) (enc : α → Json) (l : List α)
    (h : ∀ x ∈ l, f (enc x) = .ok x) : mapPR f (l.map enc) = .ok l := by
  induction l with
  | nil => rfl
  | cons x rest ih =>
    simp only [List.map_cons, mapPR, h x (by simp)]
    rw [ih (fun x' hx' => h x' (by simp [hx']))]
    rfl

/-- The collection loop is exactly a fail-fast map of `parseGeometry`. -/
theorem parseGeomList_eq_mapPR (l : List Json) :
    parseGeomList l = mapPR parseGeometry l := by
  induction l with
  | nil => rw [parseGeomList, mapPR]
  | cons g rest ih =>
    rw [parseGeomList, mapPR, ih]
    cases parseGeometry g <;> rfl

theorem encodeGeomList_eq_map (gs : List Geometry) :
    encodeGeomList gs = gs.map encodeGeometry := by
  induction gs with
  | nil => rfl
  | cons g rest ih => rw [encodeGeomList, ih, List.map_cons]

theorem validGeomList_eq_all (gs : List Geometry) :
    validGeomList gs = gs.all validGeometry := by
  induction gs with
  | nil => rfl
  | cons g rest ih => rw [validGeomList, ih, List.all_cons]

theorem parseCoordinate_ne_panicked (c : Json) : ∀ p, parseCoordinate c ≠ .panicked p := by
  intro p
  rw [parseCoordinate]
  cases h : parseCoordinateBody c <;> simp

theorem parseCoordinates_ne_panicked (obj : Json) :
    ∀ p, parseCoordinates obj ≠ .panicked p := by
  intro p
  cases obj with
  | arr c =>
    by_cases hc : c.length < 1
    · simp [parseCoordinates, hc]
    · simpa [parseCoordinates, hc] using
        mapPR_no_panicked parseCoordinate parseCoordinate_ne_panicked c p
  | null => simp [parseCoordinates]
  | bool b => simp [parseCoordinates]
  | num q => simp [parseCoordinates]
  | str s => simp [parseCoordinates]
  | obj f => simp [parseCoordinates]

theorem parseMultiLine_ne_panicked (obj : Json) :
    ∀ p, parseMultiLine obj ≠ .panicked p := by
  intro p
  cases obj with
  | arr c =>
    by_cases hc : c.length < 1
    · simp [parseMultiLine, hc]
    · simpa [parseMultiLine, hc] using
        mapPR_no_panicked parseCoordinates parseCoordinates_ne_panicked c p
  | null => simp [parseMultiLine]
  | bool b => simp [parseMultiLine]
  | num q => simp [parseMultiLine]
  | str s => simp [parseMultiLine]
  | obj f => simp [parseMultiLine]

theorem parseMultiPolygon_ne_panicked (obj : Json) :
    ∀ p, parseMultiPolygon obj ≠ .panicked p := by
  intro p
  cases obj with
  | arr si =>
    simpa [parseMultiPolygon] using
      pmap_ne_panicked _ _ (mapPR_no_panicked parseMultiLine parseMultiLine_ne_panicked si) p
  | null => simp [parseMultiPolygon]
  | bool b => simp [parseMultiPolygon]
  | num q => simp [parseMultiPolygon]
  | str s => simp [parseMultiPolygon]
  | obj f => simp [parseMultiPolygon]

/-! ## Claim theorems -/

theorem parsePoint_ne_panicked (obj : Json) : ∀ p, parsePoint obj ≠ .panicked p := by
  intro p
  simpa [parsePoint] using pmap_ne_panicked _ _ (parseCoordinate_ne_panicked obj) p

theorem parseLineString_ne_panicked (obj : Json) : ∀ p, parseLineString obj ≠ .panicked p := by
  intro p
  simpa [parseLineString] using pmap_ne_panicked _ _ (parseCoordinates_ne_panicked obj) p

theorem parseMultiPoint_ne_panicked (obj : Json) : ∀ p, parseMultiPoint obj ≠ .panicked p := by
  intro p
  simpa [parseMultiPoint] using pmap_ne_panicked _ _ (parseCoordinates_ne_panicked obj) p

theorem parseMultiLineString_ne_panicked (obj : Json) :
    ∀ p, parseMultiLineString obj ≠ .panicked p := by
  intro p
  simpa [parseMultiLineString] using pmap_ne_panicked _ _ (parseMultiLine_ne_panicked obj) p

theorem parsePolygon_ne_panicked (obj : Json) : ∀ p, parsePolygon obj ≠ .panicked p := by
  intro p
  simpa [parsePolygon] using pmap_ne_panicked _ _ (parseMultiLine_ne_panicked obj) p

/-- C8: decoding the map `{"type":"Point","coordinates":[1.5,2.5]}` with
`parseGeometry` succeeds and yields the `Point` geometry with coordinate
`(1.5, 2.5)`. -/
theorem point_example_decodes :
    parseGeometry (.obj [("type", .str "Point"), ("coordinates", .arr [.num 1.5, .num 2.5])])
      = .ok (.point (1.5, 2.5)) := by
  simp [parseGeometry, jlookup, parsePoint, parseCoordinate, parseCoordinateBody, Coord,
    PResult.pmap]

/-- C10: the `MultiPolygon` decoder has no non-emptiness check, so
`{"type":"MultiPolygon","coordinates":[]}` decodes to a `MultiPolygon` with
zero polygons — unlike the `Coordinates` and `MultiLine` decoders, which
reject the empty array. -/
theorem multiPolygon_empty_accepted :
    parseGeometry (.obj [("type", .str "MultiPolygon"), ("coordinates", .arr [])])
        = .ok (.multiPolygon [])
      ∧ parseMultiLine (.arr []) = .err (.multiLineParse (.arr []))
      ∧ parseCoordinates (.arr []) = .err (.coordinatesParse (.arr [])) := by
  refine ⟨?_, ?_, ?_⟩
  · simp [parseGeometry, jlookup, parseMultiPolygon, mapPR, PResult.pmap]
  · simp [parseMultiLine]
  · simp [parseCoordinates]

/-- C2 (code bug): `Feature.GetGeometry` on a feature whose stored raw
geometry value is JSON `null` does **not** return an absence-of-geometry
result — `parseGeometry`'s unchecked type assertion
`gi.(map[string]interface{})` panics on the `nil` interface, so the call
aborts instead of returning `(nil, nil)`. -/
theorem getGeometry_null_panics :
    Feature.GetGeometry
        { type := "Feature", id := .null, geometry := .null, properties := [],
          bbox := [], crs := none }
      = .panicked (.typeAssertMap .null) := by
  simp [Feature.GetGeometry, parseGeometry]

/-- C1 (counterexample): a top-level decode of a malformed input that is not
a JSON object is **not** converted into a normal `(nil, error)` result — the
type assertion in `parseGeometry` panics and the panic escapes the top-level
call (the only `recover` sits inside `parseCoordinate`). -/
theorem parseGeometry_nonobject_panic_escapes :
    parseGeometry (.str "not an object") = .panicked (.typeAssertMap (.str "not an object")) := by
  simp [parseGeometry]

/-- C1 (amended): panics raised during numeric coercion are caught at the
`parseCoordinate` boundary and turned into errors (`parseCoordinate` never
panics), and an object input whose tag is not `"GeometryCollection"` never
panics at top level; but an input that is not a JSON object makes
`parseGeometry` itself panic, and that panic escapes the top-level call. -/
theorem panic_containment_amended :
    (∀ c p, parseCoordinate c ≠ PResult.panicked p)
      ∧ (∀ v, (∀ fields, v ≠ Json.obj fields) →
          parseGeometry v = .panicked (.typeAssertMap v))
      ∧ (∀ fields p, jlookup fields "type" ≠ .str "GeometryCollection" →
          parseGeometry (.obj fields) ≠ .panicked p) := by
  refine ⟨parseCoordinate_ne_panicked, ?_, ?_⟩
  · intro v h
    cases v with
    | obj fields => exact absurd rfl (h fields)
    | null => simp [parseGeometry]
    | bool b => simp [parseGeometry]
    | num q => simp [parseGeometry]
    | str s => simp [parseGeometry]
    | arr l => simp [parseGeometry]
  · intro fields p htag
    rw [parseGeometry]
    split
    · exact parsePoint_ne_panicked _ p
    · exact parseLineString_ne_panicked _ p
    · exact parseMultiPoint_ne_panicked _ p
    · exact parseMultiLineString_ne_panicked _ p
    · exact parsePolygon_ne_panicked _ p
    · exact parseMultiPolygon_ne_panicked _ p
    · next x heq => exact absurd heq htag
    · simp

/-- Witness for the amended C1 statement at concrete inputs. -/
theorem panic_containment_amended_witness :
    parseGeometry (.bool true) = .panicked (.typeAssertMap (.bool true))
      ∧ parseGeometry (.obj [("type", .str "Point"), ("coordinates", .null)])
        ≠ .panicked (.typeAssertMap .null) := by
  constructor
  · exact panic_containment_amended.2.1 (.bool true) (fun fields h => Json.noConfusion h)
  · exact panic_containment_amended.2.2 [("type", .str "Point"), ("coordinates", .null)]
      (.typeAssertMap .null) (by simp [jlookup])

/-- C3: `parseCoordinate` succeeds exactly on 2-element arrays of numbers,
returning `(element0, element1)`; every other input yields a normal error
(never a panic) that carries the offending value — the whole input for a
structural failure, the offending element for a recovered coercion fault. -/
theorem parseCoordinate_contract (c : Json) :
    (∀ x y : ℚ, c = .arr [.num x, .num y] → parseCoordinate c = .ok (x, y))
      ∧ ((∀ x y : ℚ, c ≠ .arr [.num x, .num y]) →
          ∃ e, parseCoordinate c = .err e
            ∧ (e = .malformedCoordinate c
                ∨ ∃ l v, c = .arr l ∧ v ∈ l ∧ (∀ q : ℚ, v ≠ .num q)
                    ∧ e = .recovered (.coordCoercion v))) := by
  constructor
  · rintro x y rfl
    rfl
  · intro h
    cases c with
    | null => exact ⟨_, rfl, Or.inl rfl⟩
    | bool b => exact ⟨_, rfl, Or.inl rfl⟩
    | num q => exact ⟨_, rfl, Or.inl rfl⟩
    | str s => exact ⟨_, rfl, Or.inl rfl⟩
    | obj f => exact ⟨_, rfl, Or.inl rfl⟩
    | arr l =>
      rcases l with _ | ⟨a, l⟩
      · exact ⟨_, rfl, Or.inl rfl⟩
      rcases l with _ | ⟨b, l⟩
      · exact ⟨_, rfl, Or.inl rfl⟩
      rcases l with _ | ⟨c3, l⟩
      case cons.cons.cons => exact ⟨_, rfl, Or.inl rfl⟩
      cases a with
      | num x =>
        cases b with
        | num y => exact absurd rfl (h x y)
        | null =>
          exact ⟨_, rfl, Or.inr ⟨_, _, rfl, by simp, fun q h' => Json.noConfusion h', rfl⟩⟩
        | bool bb =>
          exact ⟨_, rfl, Or.inr ⟨_, _, rfl, by simp, fun q h' => Json.noConfusion h', rfl⟩⟩
        | str s =>
          exact ⟨_, rfl, Or.inr ⟨_, _, rfl, by simp, fun q h' => Json.noConfusion h', rfl⟩⟩
        | arr l2 =>
          exact ⟨_, rfl, Or.inr ⟨_, _, rfl, by simp, fun q h' => Json.noConfusion h', rfl⟩⟩
        | obj f2 =>
          exact ⟨_, rfl, Or.inr ⟨_, _, rfl, by simp, fun q h' => Json.noConfusion h', rfl⟩⟩
      | null =>
        exact ⟨_, rfl, Or.inr ⟨_, _, rfl, by simp, fun q h' => Json.noConfusion h', rfl⟩⟩
      | bool bb =>
        exact ⟨_, rfl, Or.inr ⟨_, _, rfl, by simp, fun q h' => Json.noConfusion h', rfl⟩⟩
      | str s =>
        exact ⟨_, rfl, Or.inr ⟨_, _, rfl, by simp, fun q h' => Json.noConfusion h', rfl⟩⟩
      | arr l2 =>
        exact ⟨_, rfl, Or.inr ⟨_, _, rfl, by simp, fun q h' => Json.noConfusion h', rfl⟩⟩
      | obj f2 =>
        exact ⟨_, rfl, Or.inr ⟨_, _, rfl, by simp, fun q h' => Json.noConfusion h', rfl⟩⟩

/-- Witness: the C3 contract applied at `[1, 2]`. -/
theorem parseCoordinate_contract_witness :
    parseCoordinate (.arr [.num 1, .num 2]) = .ok (1, 2) :=
  (parseCoordinate_contract (.arr [.num 1, .num 2])).1 1 2 rfl

/-- C4: the `Coordinates` and `MultiLine` decoders reject non-arrays and
empty arrays with their own list-level error; they succeed exactly when every
element decodes at the next level down (pointwise, in order); and on the
first failing element they return that element's error unchanged, with no
partial list. -/
theorem coordinate_list_codecs_contract :
    (∀ obj : Json, (∀ l : List Json, obj = .arr l → l = []) →
        parseCoordinates obj = .err (.coordinatesParse obj)
          ∧ parseMultiLine obj = .err (.multiLineParse obj))
      ∧ (∀ (l : List Json) (cs : List Coordinate),
          parseCoordinates (.arr l) = .ok cs ↔
            l ≠ [] ∧ List.Forall₂ (fun v a => parseCoordinate v = .ok a) l cs)
      ∧ (∀ (l : List Json) (m : List Coordinates),
          parseMultiLine (.arr l) = .ok m ↔
            l ≠ [] ∧ List.Forall₂ (fun v a => parseCoordinates v = .ok a) l m)
      ∧ (∀ (l₁ : List Json) (v : Json) (l₂ : List Json) (e : GoError),
          (∀ v' ∈ l₁, ∃ a, parseCoordinate v' = .ok a) → parseCoordinate v = .err e →
            parseCoordinates (.arr (l₁ ++ v :: l₂)) = .err e)
      ∧ (∀ (l₁ : List Json) (v : Json) (l₂ : List Json) (e : GoError),
          (∀ v' ∈ l₁, ∃ a, parseCoordinates v' = .ok a) → parseCoordinates v = .err e →
            parseMultiLine (.arr (l₁ ++ v :: l₂)) = .err e) := by
  refine ⟨?_, ?_, ?_, ?_, ?_⟩
  · intro obj h
    cases obj with
    | arr l =>
      have hl : l = [] := h l rfl
      subst hl
      exact ⟨rfl, rfl⟩
    | null => exact ⟨rfl, rfl⟩
    | bool b => exact ⟨rfl, rfl⟩
    | num q => exact ⟨rfl, rfl⟩
    | str s => exact ⟨rfl, rfl⟩
    | obj f => exact ⟨rfl, rfl⟩
  · intro l cs
    cases l with
    | nil => simp [parseCoordinates]
    | cons v rest => simp [parseCoordinates, mapPR_ok_iff]
  · intro l m
    cases l with
    | nil => simp [parseMultiLine]
    | cons v rest => simp [parseMultiLine, mapPR_ok_iff]
  · intro l₁ v l₂ e h₁ h₂
    have hlen : ¬((l₁ ++ v :: l₂).length < 1) := by simp
    simp only [parseCoordinates, hlen, if_false]
    exact mapPR_fail_fast parseCoordinate l₁ v l₂ e h₁ h₂
  · intro l₁ v l₂ e h₁ h₂
    have hlen : ¬((l₁ ++ v :: l₂).length < 1) := by simp
    simp only [parseMultiLine, hlen, if_false]
    exact mapPR_fail_fast parseCoordinates l₁ v l₂ e h₁ h₂

/-- Witness: the C4 fail-fast conjunct applied concretely — the second
element is malformed and its own error comes back unchanged. -/
theorem coordinate_list_codecs_contract_witness :
    parseCoordinates (.arr [.arr [.num 0, .num 0], .null])
      = .err (.malformedCoordinate .null) := by
  have h := coordinate_list_codecs_contract.2.2.2.1 [.arr [.num 0, .num 0]] .null []
    (.malformedCoordinate .null) (by intro v' hv'; simp at hv'; subst hv'; exact ⟨(0, 0), rfl⟩)
    rfl
  simpa using h

/-- C5: a map input whose `"type"` tag is absent, not a string, or not one of
the seven recognized tags fails with `UnknownGeometryType` carrying the
offending tag value; in particular `{"type":"Circle","coordinates":[0,0]}`
fails naming `"Circle"`. -/
theorem unknown_geometry_type_contract :
    (∀ fields : List (String × Json),
        (∀ s : String, jlookup fields "type" = .str s →
            s ∉ (["Point", "LineString", "MultiPoint", "MultiLineString", "Polygon",
              "MultiPolygon", "GeometryCollection"] : List String)) →
          parseGeometry (.obj fields)
            = .err (.unknownGeometryType (jlookup fields "type")))
      ∧ parseGeometry (.obj [("type", .str "Circle"), ("coordinates", .arr [.num 0, .num 0])])
          = .err (.unknownGeometryType (.str "Circle")) := by
  constructor
  · intro fields h
    rw [parseGeometry]
    split
    · next heq => exact absurd (by simp) (h _ heq)
    · next heq => exact absurd (by simp) (h _ heq)
    · next heq => exact absurd (by simp) (h _ heq)
    · next heq => exact absurd (by simp) (h _ heq)
    · next heq => exact absurd (by simp) (h _ heq)
    · next heq => exact absurd (by simp) (h _ heq)
    · next x heq => exact absurd (by simp) (h _ heq)
    · next typ heqs => rfl
  · simp [parseGeometry, jlookup]

/-- Witness: the C5 general conjunct applied at a one-field map with an
unrecognized tag. -/
theorem unknown_geometry_type_contract_witness :
    parseGeometry (.obj [("type", .str "Banana")])
      = .err (.unknownGeometryType (.str "Banana")) := by
  have h := unknown_geometry_type_contract.1 [("type", .str "Banana")]
    (by intro s hs; simp [jlookup] at hs; subst hs; simp)
  simpa [jlookup] using h

theorem pmap_collection_ok (r : PResult (List Geometry)) (gs : List Geometry) :
    r.pmap Geometry.collection = .ok (.collection gs) ↔ r = .ok gs := by
  cases r <;> simp [PResult.pmap]

/-- C6: decoding a collection runs the geometry decoder over the
`"geometries"` array pointwise in order (the spec's two-element example
yields exactly a `Point` then a `LineString`); a failing element's error is
propagated unchanged with no partial collection; a non-array `"geometries"`
value is an error. -/
theorem geometry_collection_contract :
    parseGeometry (.obj [("type", .str "GeometryCollection"),
        ("geometries", .arr
          [.obj [("type", .str "Point"), ("coordinates", .arr [.num 0, .num 0])],
           .obj [("type", .str "LineString"),
             ("coordinates", .arr [.arr [.num 0, .num 0], .arr [.num 1, .num 1]])]])])
        = .ok (.collection [.point (0, 0), .lineString [(0, 0), (1, 1)]])
      ∧ (∀ (si : List Json) (gs : List Geometry),
          parseGeometryCollection (.arr si) = .ok (.collection gs) ↔
            List.Forall₂ (fun v g => parseGeometry v = .ok g) si gs)
      ∧ (∀ (l₁ : List Json) (v : Json) (l₂ : List Json) (e : GoError),
          (∀ v' ∈ l₁, ∃ g, parseGeometry v' = .ok g) → parseGeometry v = .err e →
            parseGeometryCollection (.arr (l₁ ++ v :: l₂)) = .err e)
      ∧ (∀ obj : Json, (∀ l : List Json, obj ≠ .arr l) →
          parseGeometryCollection obj = .err .geometryCollectionParse) := by
  refine ⟨?_, ?_, ?_, ?_⟩
  · have h1 : parseGeometry (.obj [("type", .str "Point"),
        ("coordinates", .arr [.num 0, .num 0])]) = .ok (.point (0, 0)) := by
      simp [parseGeometry, jlookup, parsePoint, parseCoordinate, parseCoordinateBody, Coord,
        PResult.pmap]
    have h2 : parseGeometry (.obj [("type", .str "LineString"),
        ("coordinates", .arr [.arr [.num 0, .num 0], .arr [.num 1, .num 1]])])
        = .ok (.lineString [(0, 0), (1, 1)]) := by
      simp [parseGeometry, jlookup, parseLineString, parseCoordinates, mapPR, parseCoordinate,
        parseCoordinateBody, Coord, PResult.pmap]
    rw [parseGeometry]
    simp only [jlookup]
    simp only [String.reduceEq, reduceIte]
    rw [parseGeometryCollection, parseGeomList_eq_mapPR]
    simp [mapPR, h1, h2, PResult.pmap]
  · intro si gs
    rw [parseGeometryCollection, parseGeomList_eq_mapPR, pmap_collection_ok, mapPR_ok_iff]
  · intro l₁ v l₂ e h₁ h₂
    rw [parseGeometryCollection, parseGeomList_eq_mapPR,
      mapPR_fail_fast parseGeometry l₁ v l₂ e h₁ h₂]
    rfl
  · intro obj h
    cases obj with
    | arr l => exact absurd rfl (h l)
    | null =>
      rw [parseGeometryCollection]
      intro c hc
      exact Json.noConfusion hc
    | bool b =>
      rw [parseGeometryCollection]
      intro c hc
      exact Json.noConfusion hc
    | num q =>
      rw [parseGeometryCollection]
      intro c hc
      exact Json.noConfusion hc
    | str s =>
      rw [parseGeometryCollection]
      intro c hc
      exact Json.noConfusion hc
    | obj f =>
      rw [parseGeometryCollection]
      intro c hc
      exact Json.noConfusion hc

/-- Witness: the C6 fail-fast conjunct at a concrete collection — the first
element decodes, the second has an unknown tag, and exactly that inner
`UnknownGeometryType` error comes back. -/
theorem geometry_collection_contract_witness :
    parseGeometryCollection (.arr
        [.obj [("type", .str "Point"), ("coordinates", .arr [.num 0, .num 0])],
         .obj [("type", .str "Nope")]])
      = .err (.unknownGeometryType (.str "Nope")) := by
  have h := geometry_collection_contract.2.2.1
    [.obj [("type", .str "Point"), ("coordinates", .arr [.num 0, .num 0])]]
    (.obj [("type", .str "Nope")]) [] (.unknownGeometryType (.str "Nope"))
    (by
      intro v' hv'
      simp at hv'
      subst hv'
      exact ⟨.point (0, 0), by simp [parseGeometry, jlookup, parsePoint, parseCoordinate,
        parseCoordinateBody, Coord, PResult.pmap]⟩)
    (by simp [parseGeometry, jlookup])
  simpa using h

/-- C9: `AddFeatures` with zero arguments (the `nil` variadic slice) on a
collection whose backing `Features` slice is uninitialized (`nil`) leaves a
valid, non-`nil`, empty feature list. -/
theorem addFeatures_zero_args_robust (fc : FeatureCollection) (h : fc.features = none) :
    (fc.AddFeatures none).features = some []
      ∧ (fc.AddFeatures none).features ≠ none := by
  constructor
  · simp [FeatureCollection.AddFeatures, goAppend]
  · simp [FeatureCollection.AddFeatures, goAppend]

/-- Witness: C9 at a freshly constructed collection with a `nil` backing
slice. -/
theorem addFeatures_zero_args_robust_witness :
    ((NewFeatureCollection none).AddFeatures none).features = some [] :=
  (addFeatures_zero_args_robust (NewFeatureCollection none) rfl).1

theorem parseCoordinate_encode (c : Coordinate) :
    parseCoordinate (encodeCoordinate c) = .ok c := rfl

theorem validMulti_iff (m : MultiLine) :
    validMulti m = true ↔ m ≠ [] ∧ ∀ li ∈ m, li ≠ [] := by
  simp [validMulti]

theorem parseCoordinates_encode (l : Coordinates) (h : l ≠ []) :
    parseCoordinates (encodeCoordinates l) = .ok l := by
  have hlen : ¬((l.map encodeCoordinate).length < 1) := by
    have := List.length_pos.mpr h
    simp only [List.length_map]
    omega
  simp only [encodeCoordinates, parseCoordinates]
  rw [if_neg hlen]
  exact mapPR_encode parseCoordinate encodeCoordinate l (fun x _ => parseCoordinate_encode x)

theorem parseMultiLine_encode (m : MultiLine) (h : validMulti m = true) :
    parseMultiLine (encodeMultiLine m) = .ok m := by
  obtain ⟨h1, h2⟩ := (validMulti_iff m).mp h
  have hlen : ¬((m.map encodeCoordinates).length < 1) := by
    have := List.length_pos.mpr h1
    simp only [List.length_map]
    omega
  simp only [encodeMultiLine, parseMultiLine]
  rw [if_neg hlen]
  exact mapPR_encode parseCoordinates encodeCoordinates m
    (fun x hx => parseCoordinates_encode x (h2 x hx))

theorem parseMultiPolygon_encode (ms : List MultiLine) (h : ms.all validMulti = true) :
    parseMultiPolygon (.arr (ms.map encodeMultiLine)) = .ok (.multiPolygon ms) := by
  simp only [parseMultiPolygon]
  rw [mapPR_encode parseMultiLine encodeMultiLine ms
    (fun x hx => parseMultiLine_encode x (List.all_eq_true.mp h x hx))]
  rfl

/-- Round trip bounded by the size of the geometry (for the recursion into
collections). -/
theorem roundtrip_aux :
    ∀ n : ℕ, ∀ g : Geometry, sizeOf g ≤ n → validGeometry g = true →
      parseGeometry (encodeGeometry g) = .ok g := by
  intro n
  induction n with
  | zero =>
    intro g hs _
    exfalso
    cases g <;> simp_arith at hs
  | succ n ih =>
    intro g hs hv
    cases g with
    | point c =>
      simp [encodeGeometry, parseGeometry, jlookup, parsePoint, parseCoordinate_encode,
        PResult.pmap]
    | lineString l =>
      have h1 : l ≠ [] := by simpa [validGeometry] using hv
      simp [encodeGeometry, parseGeometry, jlookup, parseLineString,
        parseCoordinates_encode l h1, PResult.pmap]
    | multiPoint l =>
      have h1 : l ≠ [] := by simpa [validGeometry] using hv
      simp [encodeGeometry, parseGeometry, jlookup, parseMultiPoint,
        parseCoordinates_encode l h1, PResult.pmap]
    | multiLineString m =>
      have h1 : validMulti m = true := by simpa [validGeometry] using hv
      simp [encodeGeometry, parseGeometry, jlookup, parseMultiLineString,
        parseMultiLine_encode m h1, PResult.pmap]
    | polygon m =>
      have h1 : validMulti m = true := by simpa [validGeometry] using hv
      simp [encodeGeometry, parseGeometry, jlookup, parsePolygon,
        parseMultiLine_encode m h1, PResult.pmap]
    | multiPolygon ms =>
      have h1 : ms.all validMulti = true := by simpa [validGeometry] using hv
      simp [encodeGeometry, parseGeometry, jlookup, parseMultiPolygon_encode ms h1]
    | collection gs =>
      have hgs : validGeomList gs = true := by simpa [validGeometry] using hv
      have hsz : sizeOf gs ≤ n := by
        have hc : sizeOf (Geometry.collection gs) = 1 + sizeOf gs := by
          simp
        omega
      have hlist : parseGeomList (encodeGeomList gs) = .ok gs := by
        rw [parseGeomList_eq_mapPR, encodeGeomList_eq_map]
        apply mapPR_encode parseGeometry encodeGeometry gs
        intro g' hg'
        apply ih g'
        · have hlt := List.sizeOf_lt_of_mem hg'
          omega
        · rw [validGeomList_eq_all] at hgs
          exact List.all_eq_true.mp hgs g' hg'
      rw [encodeGeometry, parseGeometry]
      simp only [jlookup]
      simp only [String.reduceEq, reduceIte]
      rw [parseGeometryCollection, hlist]
      rfl

/-- C7: encoding any valid `Geometry` (any of the seven variants, nested
collections included) to the wire value and decoding it back with
`parseGeometry` yields the original value. -/
theorem geometry_roundtrip (g : Geometry) (h : validGeometry g = true) :
    parseGeometry (encodeGeometry g) = .ok g :=
  roundtrip_aux (sizeOf g) g le_rfl h

/-- Witness: the C7 round trip at a `GeometryCollection` nested three levels
deep. -/
theorem geometry_roundtrip_witness :
    validGeometry (Geometry.collection [.collection [.collection [.point (1, 2)]],
        .lineString [(0, 0), (1, 1)]]) = true
      ∧ parseGeometry (encodeGeometry (Geometry.collection [.collection [.collection
          [.point (1, 2)]], .lineString [(0, 0), (1, 1)]]))
        = .ok (.collection [.collection [.collection [.point (1, 2)]],
            .lineString [(0, 0), (1, 1)]]) := by
  constructor
  · simp [validGeometry, validGeomList, validMulti]
  · exact geometry_roundtrip _ (by simp [validGeometry, validGeomList, validMulti])
